import Mathlib

/-!
Verification development for the California COVID analytics service
(`api.py`, `analytics.py` of the big-data bootcamp project).

The Python endpoints build SQL text by appending filter clauses to a base
query, pass user values in a positional parameter tuple, post-process the
fetched rows (error dict on empty result, single record vs list depending
on which filters were given), memoize `(query, params)` pairs through
`functools.lru_cache(maxsize=512)`, and feed trend data to an ARIMA
forecast and a seeded KMeans clustering.

Each Python fragment is embedded shallowly below: strings stay strings,
optional query parameters become `Option String` with Python truthiness,
the fetched rows are an explicit argument to the response-shaping
functions, dates for the forecast are absolute day numbers (plus a small
calendar type where month boundaries matter), and the LRU cache is an
explicit recency-ordered association list.
-/

namespace CovidApi

/-- A bound query parameter: the Python code appends either strings
(dates, county, category) or the integer `limit` to the params tuple. -/
inductive Param where
  | str (s : String)
  | int (n : Int)
deriving DecidableEq

/-- Python truthiness of an optional string query parameter:
`if county:` is true iff the value is present and non-empty. -/
def truthy (o : Option String) : Bool :=
  match o with
  | none => false
  | some s => !s.isEmpty

/-- Value of an optional string parameter, `""` when absent
(only ever used under a `truthy` guard, mirroring the Python flow). -/
def optVal (o : Option String) : String :=
  match o with
  | none => ""
  | some s => s

/-- Append one optional filter clause, mirroring the Python pattern
`if x: query += clause; params.append(x)`. -/
def appendFilter (qp : String × List Param) (clause : String) (v : Option String) :
    String × List Param :=
  if truthy v then (qp.1 ++ clause, qp.2 ++ [Param.str (optVal v)]) else qp

/-- Embedding of `get_cases_summary_by_county` (api.py lines 147-162):
the query text is built with f-strings that interpolate the caller
supplied `metric` directly (`AVG({metric}) AS avg_{metric}` and the ORDER BY),
while dates and `limit` go into the parameter tuple. -/
def getCasesSummaryQuery (start_date end_date : Option String) (metric : String)
    (limit : Int) : String × List Param :=
  let q0 : String × List Param :=
    ("SELECT AREA, AVG(" ++ metric ++ ") AS avg_" ++ metric ++
      " FROM CALIFORNIA_COVID_ANALYTICS.ANALYTICS.CA_CASES_DEMOGRAPHICS_AGG WHERE 1=1", [])
  let q1 := appendFilter q0 " AND DATE >= %s" start_date
  let q2 := appendFilter q1 " AND DATE <= %s" end_date
  (q2.1 ++ " GROUP BY AREA ORDER BY avg_" ++ metric ++ " DESC LIMIT %s",
    q2.2 ++ [Param.int limit])

/-- The metric enumeration of `get_trend` (api.py lines 168-169): the
keys of `valid_metrics`. -/
def validMetricsKeys : List String := ["cases", "deaths", "cases_p_k", "deaths_p_k"]

/-- The column each valid metric key maps to (`valid_metrics` values). -/
def metricColumn (m : String) : String :=
  if m == "cases" then "TOTAL_CASES"
  else if m == "deaths" then "TOTAL_DEATHS"
  else if m == "cases_p_k" then "CASES_PER_100K"
  else "DEATHS_PER_100K"

/-- Embedding of `get_trend` (api.py lines 166-191): a supplied metric
outside `valid_metrics` returns the error dict before any query is
built; otherwise the select clause, the interval date expression and the
optional county filter produce the query and its parameter tuple. -/
def getTrendQuery (county metric : Option String) (interval : String) :
    Except String (String × List Param) :=
  if truthy metric && !(validMetricsKeys.contains (optVal metric)) then
    Except.error ("Invalid metric \x27" ++ optVal metric ++ "\x27. Choose from " ++
      "[\x27cases\x27, \x27deaths\x27, \x27cases_p_k\x27, \x27deaths_p_k\x27]")
  else
    let selectClause :=
      if truthy metric then
        if optVal metric == "cases" || optVal metric == "deaths" then
          "SUM(" ++ metricColumn (optVal metric) ++ ") AS total_" ++ optVal metric
        else
          "AVG(" ++ metricColumn (optVal metric) ++ ") AS " ++ metricColumn (optVal metric)
      else
        "SUM(TOTAL_CASES) AS TOTAL_CASES, SUM(TOTAL_DEATHS) AS TOTAL_DEATHS, " ++
          "AVG(CASES_PER_100K) AS CASES_PER_100K, AVG(DEATHS_PER_100K) AS DEATHS_PER_100K"
    let dateExpr :=
      if interval == "month" then "DATE_TRUNC(\x27month\x27, DATE)" else "DATE"
    let q0 : String × List Param :=
      ("SELECT " ++ dateExpr ++ " AS period, " ++ selectClause ++
        " FROM CALIFORNIA_COVID_ANALYTICS.ANALYTICS.CA_TREND_MV WHERE 1=1", [])
    Except.ok (appendFilter q0 " AND AREA = %s" county)

/-- Embedding of the query built by `get_cases_demographics_view`
(api.py lines 123-137): county, exact date, and date range are three
independently appended predicates; when both a date and a full range are
supplied the query conjoins `DATE = %s` with `DATE BETWEEN %s AND %s`. -/
def getViewQuery (county date start_date end_date : Option String) :
    String × List Param :=
  let q0 : String × List Param :=
    ("SELECT * FROM CALIFORNIA_COVID_ANALYTICS.ANALYTICS.CA_CASES_DEMOGRAPHICS_VIEW WHERE 1=1",
      [])
  let q1 := appendFilter q0 " AND AREA = %s" county
  let q2 := appendFilter q1 " AND DATE = %s" date
  if truthy start_date && truthy end_date then
    (q2.1 ++ " AND DATE BETWEEN %s AND %s",
      q2.2 ++ [Param.str (optVal start_date), Param.str (optVal end_date)])
  else q2

/-- A fetched warehouse row (a dict in Python); only its identity matters
to the response-shaping logic. -/
abbrev Row := List (String × String)

/-- The shape of an endpoint JSON response: an error dict, a single
record (`result[0]`), or a list of records. -/
inductive ApiResp where
  | errorMsg (s : String)
  | single (r : Row)
  | many (rs : List Row)
deriving DecidableEq

/-- Response shaping of `get_demographics` (api.py lines 54-65) as a
function of the fetched rows: empty result returns the error dict,
otherwise `result[0]` when a county was given, else the list. -/
def getDemographicsRespond (county : Option String) (rows : List Row) : ApiResp :=
  match rows with
  | [] => ApiResp.errorMsg "No demographics found"
  | r :: rs => if truthy county then ApiResp.single r else ApiResp.many (r :: rs)

/-- Response shaping of `get_cases` (api.py lines 69-83): empty result
returns the error dict; `result[0]` exactly when both county and date
are truthy, else the list. -/
def getCasesRespond (county date : Option String) (rows : List Row) : ApiResp :=
  match rows with
  | [] => ApiResp.errorMsg "No cases found"
  | r :: rs =>
    if truthy county && truthy date then ApiResp.single r else ApiResp.many (r :: rs)

/-- Response shaping of `get_cases_demographics_view` (api.py lines
138-143): empty result returns the error dict; `result[0]` when a county
is given together with an exact date or a degenerate range. -/
def getViewRespond (county date start_date end_date : Option String)
    (rows : List Row) : ApiResp :=
  match rows with
  | [] => ApiResp.errorMsg "No data found with given filters"
  | r :: rs =>
    if truthy county &&
        (truthy date ||
          (truthy start_date && truthy end_date && optVal start_date == optVal end_date)) then
      ApiResp.single r
    else ApiResp.many (r :: rs)

end CovidApi

namespace ResultCache

/-- `functools.lru_cache(maxsize=512)` on `fetch_query_cached`
(api.py line 38): the fixed capacity of the result cache. -/
def CACHE_MAXSIZE : Nat := 512

/-- Outcome of one memoized call: the returned value, the cache contents
after the call (most recently used first), and whether the wrapped
function body actually ran during this call. -/
structure CacheStep (κ β : Type) where
  value : β
  entries : List (κ × β)
  invoked : Bool

/-- Cache lookup: the stored value for a signature, if present. -/
def lruGet {κ β : Type} [DecidableEq κ] (es : List (κ × β)) (k : κ) : Option β :=
  (es.find? (fun e => e.1 == k)).map (fun e => e.2)

/-- One call through `lru_cache`: on a hit the stored value is returned
and the entry moves to the most-recently-used position without running
the wrapped function; on a miss the function runs once, the result is
stored at the front, and the list is truncated to `cap` entries, which
drops the least-recently-used entry when the cache was full. -/
def getOrCompute {κ β : Type} [DecidableEq κ] (cap : Nat) (es : List (κ × β))
    (k : κ) (f : Unit → β) : CacheStep κ β :=
  match es.find? (fun e => e.1 == k) with
  | some e => ⟨e.2, (k, e.2) :: es.eraseP (fun e => e.1 == k), false⟩
  | none => ⟨f (), ((k, f ()) :: es).take cap, true⟩

/-- The cache key used by the code: the `(query, params)` pair of
`fetch_query_cached`. -/
abbrev Signature := String × List CovidApi.Param

end ResultCache

namespace Forecast

/-- The `df.dropna(subset=[period, value])` step after the coercing
conversions (visualization.py lines 75-77): rows whose period or value
is null or unparseable are dropped. Periods are absolute day numbers,
values are integers scaled from the raw metric. -/
def dropna (rows : List (Option Nat × Option Int)) : List (Nat × Int) :=
  rows.filterMap (fun r =>
    match r with
    | (some p, some v) => some (p, v)
    | _ => none)

/-- What the forecasting branch does with a cleaned series: skip with the
warning (no model fit), or attempt the ARIMA(1,1,1) fit on that many
points. -/
inductive BranchOutcome where
  | insufficient
  | fitAttempted (points : Nat)
deriving DecidableEq

/-- visualization.py lines 79-87: after dropping nulls only emptiness is
checked (`if df.empty`); any non-empty cleaned series reaches the
ARIMA order (1,1,1) fit attempt. -/
def forecastBranch (rows : List (Option Nat × Option Int)) : BranchOutcome :=
  let df := dropna rows
  if df.isEmpty then BranchOutcome.insufficient
  else BranchOutcome.fitAttempted df.length

/-- `pd.date_range(df.index[-1] + pd.Timedelta(days=1), periods=horizon)`
(visualization.py line 86) over absolute day numbers: `horizon`
consecutive days starting the day after the last observed one. -/
def forecastDates (lastObs : Nat) (horizon : Nat) : List Nat :=
  (List.range horizon).map (fun i => lastObs + 1 + i)

/-- A calendar date, for the month-boundary behaviour of the same
pandas expressions. -/
structure Date where
  year : Nat
  month : Nat
  day : Nat
deriving DecidableEq

/-- Days in a Gregorian calendar month. -/
def daysInMonth (y m : Nat) : Nat :=
  if m == 2 then (if y % 4 == 0 && (y % 100 != 0 || y % 400 == 0) then 29 else 28)
  else if m == 4 || m == 6 || m == 9 || m == 11 then 30
  else 31

/-- `+ pd.Timedelta(days=1)` on a calendar date. -/
def addOneDay (d : Date) : Date :=
  if d.day < daysInMonth d.year d.month then ⟨d.year, d.month, d.day + 1⟩
  else if d.month < 12 then ⟨d.year, d.month + 1, 1⟩
  else ⟨d.year + 1, 1, 1⟩

/-- First forecast period produced by the code on the calendar: always
one day after the last observed period, whatever the bucketing
(visualization.py line 86 uses `days=1` unconditionally). -/
def forecastStart (lastObs : Date) : Date := addOneDay lastObs

/-- `pd.date_range(last + Timedelta(days=1), periods=horizon)` with its
default daily frequency, on calendar dates. -/
def forecastDatesCal (lastObs : Date) : Nat → List Date
  | 0 => []
  | n + 1 => addOneDay lastObs :: forecastDatesCal (addOneDay lastObs) n

/-- The period the spec claims as the first forecast period for a
month-bucketed series (the next month-start); stated from the spec
wording, for comparison with `forecastStart`. -/
def specNextMonthStart (d : Date) : Date :=
  if d.month < 12 then ⟨d.year, d.month + 1, 1⟩ else ⟨d.year + 1, 1, 1⟩

end Forecast

namespace Cluster

/-- A feature vector of one entity (exact rational arithmetic stands in
for the float features). -/
abbrev Vec := List ℚ

/-- Squared euclidean distance between two feature vectors. -/
def sqDist (a b : Vec) : ℚ :=
  ((a.zip b).map (fun p => (p.1 - p.2) * (p.1 - p.2))).sum

/-- Index of the first minimum of `b :: ys`, where `best` is the index
of `b` and `i` the index of the head of `ys`. -/
def argminAux : List ℚ → ℚ → Nat → Nat → Nat
  | [], _, best, _ => best
  | y :: ys, b, best, i =>
    if y < b then argminAux ys y i (i + 1) else argminAux ys b best (i + 1)

/-- Index of the first minimum of a list (0 for the empty list). -/
def argminIdx : List ℚ → Nat
  | [] => 0
  | x :: xs => argminAux xs x 0 1

/-- Label of a point: the index of the closest centroid. -/
def nearestCentroid (cents : List Vec) (x : Vec) : Nat :=
  argminIdx (cents.map (sqDist x))

/-- Deterministic pseudo-random stream derived from the `random_state`
seed (a linear congruential generator). -/
def lcg (seed : Nat) : Nat → Nat
  | 0 => (1103515245 * seed + 12345) % 2 ^ 31
  | i + 1 => (1103515245 * lcg seed i + 12345) % 2 ^ 31

/-- Seeded deterministic initialization: `k` starting centroids chosen
from the data by the seeded stream. -/
def initCentroids (seed k : Nat) (data : List Vec) : List Vec :=
  (List.range k).map (fun i => data.getD (lcg seed i % data.length) [])

/-- New centroid of cluster `j`: the mean of its members, or the old
centroid when the cluster is empty. -/
def clusterMean (data : List Vec) (cents : List Vec) (j : Nat) : Vec :=
  let members := data.filter (fun x => nearestCentroid cents x == j)
  match members with
  | [] => cents.getD j []
  | m :: ms =>
    let total := ms.foldl (fun acc v => List.zipWith (· + ·) acc v) m
    total.map (fun c => c / ((ms.length + 1 : Nat) : ℚ))

/-- One Lloyd iteration: recompute every centroid. -/
def lloydStep (data : List Vec) (cents : List Vec) : List Vec :=
  (List.range cents.length).map (fun j => clusterMean data cents j)

/-- `n` Lloyd iterations. -/
def lloydIter (data : List Vec) : Nat → List Vec → List Vec
  | 0, cents => cents
  | n + 1, cents => lloydIter data n (lloydStep data cents)

/-- `KMeans(n_clusters=k, random_state=seed).fit_predict(data)`
(visualization.py lines 149-150) modelled as the deterministic function
it is for a fixed `random_state`: seeded initialization, 300 Lloyd
iterations (the sklearn default `max_iter`), then one label per data
point, the index of its nearest centroid. -/
def kmeansFitPredict (seed k : Nat) (data : List Vec) : List Nat :=
  let cents := lloydIter data 300 (initCentroids seed k data)
  data.map (fun x => nearestCentroid cents x)

/-- The clustering run of visualization.py lines 149-151: the seed is
fixed to `random_state=42`. -/
def runClustering (k : Nat) (data : List Vec) : List Nat :=
  kmeansFitPredict 42 k data

end Cluster

namespace CovidApi

/-- C1: at the failing input, the caller-supplied `metric` of
`get_cases_summary_by_county` is string-interpolated into the query text
(three times) and does not appear in the bound parameter tuple, contrary
to the claim that caller-supplied values appear only in the parameter
tuple. -/
theorem C1_summary_metric_interpolated :
    (getCasesSummaryQuery none none "NOT_A_COLUMN" 10).1 =
      "SELECT AREA, AVG(NOT_A_COLUMN) AS avg_NOT_A_COLUMN FROM " ++
        "CALIFORNIA_COVID_ANALYTICS.ANALYTICS.CA_CASES_DEMOGRAPHICS_AGG WHERE 1=1" ++
        " GROUP BY AREA ORDER BY avg_NOT_A_COLUMN DESC LIMIT %s" ∧
    (getCasesSummaryQuery none none "NOT_A_COLUMN" 10).2 = [Param.int 10] :=
  ⟨rfl, rfl⟩

/-- C2 counterexample: `cases_per_100k` belongs to the enumeration named
by the claim, yet `get_trend` rejects it with the invalid-metric error,
because the code enumeration uses the abbreviated keys `cases_p_k` and
`deaths_p_k`. -/
theorem C2_counterexample :
    "cases_per_100k" ∈ ["cases", "deaths", "cases_per_100k", "deaths_per_100k"] ∧
    getTrendQuery none (some "cases_per_100k") "day" =
      Except.error ("Invalid metric \x27cases_per_100k\x27. Choose from " ++
        "[\x27cases\x27, \x27deaths\x27, \x27cases_p_k\x27, \x27deaths_p_k\x27]") := by
  exact ⟨by decide, rfl⟩

/-- Whether the trend endpoint answered with the invalid-metric error
(in which case no query text or parameter tuple was produced). -/
def isTrendError (r : Except String (String × List Param)) : Bool :=
  match r with
  | Except.error _ => true
  | Except.ok _ => false

/-- C2 (amended): `get_trend` returns the invalid-metric error, before
any query is built, exactly when a non-empty metric outside the code
enumeration `{cases, deaths, cases_p_k, deaths_p_k}` is supplied; for a
metric in that enumeration, or no metric, no such error is raised. -/
theorem C2_trend_metric_validation (county metric : Option String) (interval : String) :
    isTrendError (getTrendQuery county metric interval) =
      (truthy metric && !(validMetricsKeys.contains (optVal metric))) := by
  unfold getTrendQuery
  cases h : (truthy metric && !(validMetricsKeys.contains (optVal metric))) <;>
    simp [h, isTrendError]

/-- C8 counterexample: with both an exact date and a full date range
supplied, `get_cases_demographics_view` builds a query that conjoins
`DATE = %s` with `DATE BETWEEN %s AND %s` and binds all three values; no
InvalidFilter rejection and no precedence rule exists. -/
theorem C8_counterexample :
    getViewQuery none (some "2022-06-01") (some "2022-01-01") (some "2022-12-31") =
      ("SELECT * FROM CALIFORNIA_COVID_ANALYTICS.ANALYTICS.CA_CASES_DEMOGRAPHICS_VIEW" ++
        " WHERE 1=1 AND DATE = %s AND DATE BETWEEN %s AND %s",
       [Param.str "2022-06-01", Param.str "2022-01-01", Param.str "2022-12-31"]) :=
  rfl

/-- C8 (amended): whenever a start and end date are both supplied, the
view operation appends the BETWEEN predicate and its two parameters on
top of whatever the county and exact-date filters already produced — the
exact date and the range are independently conjoined, never rejected. -/
theorem C8_view_conjoins_filters (county date start_date end_date : Option String)
    (hs : truthy start_date = true) (he : truthy end_date = true) :
    getViewQuery county date start_date end_date =
      ((getViewQuery county date none none).1 ++ " AND DATE BETWEEN %s AND %s",
       (getViewQuery county date none none).2 ++
         [Param.str (optVal start_date), Param.str (optVal end_date)]) := by
  unfold getViewQuery
  rw [hs, he]
  simp [truthy]

/-- C8 witness: the amended statement at the counterexample input. -/
theorem C8_witness :
    getViewQuery none (some "2022-06-01") (some "2022-01-01") (some "2022-12-31") =
      ((getViewQuery none (some "2022-06-01") none none).1 ++ " AND DATE BETWEEN %s AND %s",
       (getViewQuery none (some "2022-06-01") none none).2 ++
         [Param.str "2022-01-01", Param.str "2022-12-31"]) :=
  C8_view_conjoins_filters none (some "2022-06-01") (some "2022-01-01")
    (some "2022-12-31") rfl rfl

/-- C9: on a well-formed query with an empty result set, the
demographics (entity summary) and cross-sectional view endpoints return
the structured error dict, and neither endpoint can ever return an empty
list as a success value. -/
theorem C9_empty_result_is_error (county date start_date end_date : Option String)
    (rows : List Row) (hempty : rows = []) :
    getDemographicsRespond county rows = ApiResp.errorMsg "No demographics found" ∧
    getViewRespond county date start_date end_date rows =
      ApiResp.errorMsg "No data found with given filters" ∧
    (∀ rs : List Row, getDemographicsRespond county rs ≠ ApiResp.many []) ∧
    (∀ rs : List Row, getViewRespond county date start_date end_date rs ≠ ApiResp.many []) := by
  subst hempty
  refine ⟨rfl, rfl, ?_, ?_⟩
  · intro rs
    cases rs with
    | nil => simp [getDemographicsRespond]
    | cons r t =>
      simp only [getDemographicsRespond]
      split <;> simp
  · intro rs
    cases rs with
    | nil => simp [getViewRespond]
    | cons r t =>
      simp only [getViewRespond]
      split <;> simp

/-- C9 witness: the empty-result behaviour at the scenario input
(county Alameda, exact date 2022-12-31, zero rows). -/
theorem C9_witness :
    getDemographicsRespond (some "Alameda") [] =
      ApiResp.errorMsg "No demographics found" ∧
    getViewRespond (some "Alameda") (some "2022-12-31") none none [] =
      ApiResp.errorMsg "No data found with given filters" :=
  ⟨(C9_empty_result_is_error (some "Alameda") (some "2022-12-31") none none [] rfl).1,
   (C9_empty_result_is_error (some "Alameda") (some "2022-12-31") none none [] rfl).2.1⟩

/-- C10: on a non-empty result, `get_cases` returns the single first row
exactly when both the county and the date filter are supplied (Python
truthiness: present and non-empty); otherwise it returns the full list,
even when that list has exactly one row. -/
theorem C10_cases_single_vs_list (county date : Option String) (r : Row) (rs : List Row) :
    (getCasesRespond county date (r :: rs) = ApiResp.single r ↔
      truthy county = true ∧ truthy date = true) ∧
    (¬(truthy county = true ∧ truthy date = true) →
      getCasesRespond county date (r :: rs) = ApiResp.many (r :: rs)) := by
  unfold getCasesRespond
  cases hc : truthy county <;> cases hd : truthy date <;> simp

/-- C10 witness: with only the county supplied, a one-row result is
returned as a list, not a single record; with both supplied, the first
row is returned alone. -/
theorem C10_witness :
    getCasesRespond (some "Alameda") none [[("AREA", "Alameda")]] =
      ApiResp.many [[("AREA", "Alameda")]] ∧
    getCasesRespond (some "Alameda") (some "2022-12-31") [[("AREA", "Alameda")]] =
      ApiResp.single [("AREA", "Alameda")] :=
  ⟨(C10_cases_single_vs_list (some "Alameda") none [("AREA", "Alameda")] []).2
      (by decide),
   (C10_cases_single_vs_list (some "Alameda") (some "2022-12-31")
      [("AREA", "Alameda")] []).1.mpr (by decide)⟩

end CovidApi

namespace ResultCache

/-- C3: through the 512-entry cache of `fetch_query_cached`, a first
call on an uncached signature runs the wrapped function (exactly the one
invocation of the miss branch) and stores its result; an immediately
subsequent call on the equal signature, and more generally any call
while the signature is cached, returns the stored value without running
the function again. -/
theorem C3_cache_memoization {κ β : Type} [DecidableEq κ] (es : List (κ × β))
    (k : κ) (f : Unit → β) (hmiss : lruGet es k = none) :
    (getOrCompute CACHE_MAXSIZE es k f).invoked = true ∧
    (getOrCompute CACHE_MAXSIZE es k f).value = f () ∧
    lruGet (getOrCompute CACHE_MAXSIZE es k f).entries k = some (f ()) ∧
    (getOrCompute CACHE_MAXSIZE
        (getOrCompute CACHE_MAXSIZE es k f).entries k f).invoked = false ∧
    (getOrCompute CACHE_MAXSIZE
        (getOrCompute CACHE_MAXSIZE es k f).entries k f).value = f () ∧
    (∀ (es' : List (κ × β)) (v : β), lruGet es' k = some v →
      (getOrCompute CACHE_MAXSIZE es' k f).invoked = false ∧
      (getOrCompute CACHE_MAXSIZE es' k f).value = v) := by
  have hfind : es.find? (fun e => e.1 == k) = none := by
    unfold lruGet at hmiss
    exact Option.map_eq_none'.mp hmiss
  have hstep : getOrCompute CACHE_MAXSIZE es k f =
      ⟨f (), ((k, f ()) :: es).take CACHE_MAXSIZE, true⟩ := by
    unfold getOrCompute
    rw [hfind]
  have hstored : lruGet (((k, f ()) :: es).take CACHE_MAXSIZE) k = some (f ()) := by
    unfold lruGet
    rw [show CACHE_MAXSIZE = 511 + 1 from rfl, List.take_succ_cons]
    simp
  have hhit : ∀ (es' : List (κ × β)) (v : β), lruGet es' k = some v →
      (getOrCompute CACHE_MAXSIZE es' k f).invoked = false ∧
      (getOrCompute CACHE_MAXSIZE es' k f).value = v := by
    intro es' v hv
    unfold lruGet at hv
    rcases Option.map_eq_some'.mp hv with ⟨e, hfe, hev⟩
    unfold getOrCompute
    rw [hfe]
    exact ⟨rfl, hev⟩
  refine ⟨by rw [hstep], by rw [hstep], ?_, ?_, ?_, hhit⟩
  · rw [hstep]; exact hstored
  · exact (hhit _ _ (by rw [hstep]; exact hstored)).1
  · exact (hhit _ _ (by rw [hstep]; exact hstored)).2

/-- C3 witness: on the empty cache, signature 0 is computed once and the
second call does not recompute. -/
theorem C3_witness :
    (getOrCompute CACHE_MAXSIZE ([] : List (Nat × Nat)) 0 (fun _ => 42)).invoked = true ∧
    (getOrCompute CACHE_MAXSIZE
        (getOrCompute CACHE_MAXSIZE ([] : List (Nat × Nat)) 0
          (fun _ => 42)).entries 0 (fun _ => 42)).invoked = false :=
  ⟨(C3_cache_memoization [] 0 (fun _ => 42) rfl).1,
   (C3_cache_memoization [] 0 (fun _ => 42) rfl).2.2.2.1⟩

/-- C4: every cache operation preserves the 512-entry bound, and a miss
on a full cache evicts exactly the least-recently-used entry (the last
of the recency-ordered list), keeping the other 511 entries plus the new
one. -/
theorem C4_cache_bound_lru {κ β : Type} [DecidableEq κ] (es : List (κ × β))
    (k : κ) (f : Unit → β) :
    (es.length ≤ CACHE_MAXSIZE →
      (getOrCompute CACHE_MAXSIZE es k f).entries.length ≤ CACHE_MAXSIZE) ∧
    (es.length = CACHE_MAXSIZE → lruGet es k = none →
      (getOrCompute CACHE_MAXSIZE es k f).entries = (k, f ()) :: es.dropLast) := by
  constructor
  · intro hle
    unfold getOrCompute
    cases hfind : es.find? (fun e => e.1 == k) with
    | some e =>
      simp only
      have hmem := List.mem_of_find?_eq_some hfind
      have hlen := List.length_eraseP_add_one (p := fun (e : κ × β) => e.1 == k) hmem
        (List.find?_some (p := fun (e : κ × β) => e.1 == k) hfind)
      simpa [List.length_cons, hlen] using hle
    | none =>
      simp only [List.length_take]
      exact min_le_left _ _
  · intro hfull hmiss
    have hfind : es.find? (fun e => e.1 == k) = none :=
      Option.map_eq_none'.mp hmiss
    unfold getOrCompute
    rw [hfind]
    simp only
    rw [show CACHE_MAXSIZE = 511 + 1 from rfl, List.take_succ_cons,
      List.dropLast_eq_take, hfull]
    rfl

/-- C4 witness: a full 512-entry cache, missed by signature 0, stays
within the bound and evicts its least-recently-used entry. -/
theorem C4_witness :
    ((getOrCompute CACHE_MAXSIZE (List.replicate 512 ((1 : Nat), (0 : Nat))) 0
        (fun _ => 7)).entries.length ≤ CACHE_MAXSIZE) ∧
    (getOrCompute CACHE_MAXSIZE (List.replicate 512 ((1 : Nat), (0 : Nat))) 0
        (fun _ => 7)).entries =
      (0, 7) :: (List.replicate 512 ((1 : Nat), (0 : Nat))).dropLast :=
  ⟨(C4_cache_bound_lru (List.replicate 512 ((1 : Nat), (0 : Nat))) 0 (fun _ => 7)).1
      (by rw [List.length_replicate]; exact le_rfl),
   (C4_cache_bound_lru (List.replicate 512 ((1 : Nat), (0 : Nat))) 0 (fun _ => 7)).2
      (by rw [List.length_replicate]; rfl)
      (by
        simp only [lruGet, Option.map_eq_none']
        rw [List.find?_eq_none]
        intro x hx
        rw [List.eq_of_mem_replicate hx]
        simp)⟩

end ResultCache

namespace Forecast

/-- `forecastDates` for a positive horizon starts one day after the last
observation and then steps one day at a time. -/
theorem forecastDates_succ (l h : Nat) :
    forecastDates l (h + 1) = (l + 1) :: forecastDates (l + 1) h := by
  unfold forecastDates
  rw [List.range_succ_eq_map, List.map_cons, List.map_map]
  refine congrArg (fun t => (l + 1) :: t) ?_
  apply List.map_congr_left
  intro i _
  simp [Function.comp]
  omega

/-- The dates produced by `pd.date_range` with daily frequency are
consecutive. -/
theorem chain'_forecastDates : ∀ (h l : Nat),
    List.Chain' (fun a b => b = a + 1) (forecastDates l h) := by
  intro h
  induction h with
  | zero => intro l; exact List.chain'_nil
  | succ m ih =>
    intro l
    rw [forecastDates_succ]
    cases m with
    | zero => exact List.chain'_singleton _
    | succ n =>
      rw [forecastDates_succ]
      refine List.chain'_cons.mpr ⟨rfl, ?_⟩
      rw [← forecastDates_succ]
      exact ih (l + 1)

/-- In a strictly increasing series every period is at most the last
one. -/
theorem le_getLast_of_sorted_lt : ∀ (s : List Nat) (hne : s ≠ []),
    s.Sorted (· < ·) → ∀ x ∈ s, x ≤ s.getLast hne := by
  intro s
  induction s with
  | nil => intro hne; exact absurd rfl hne
  | cons a t ih =>
    intro hne hs x hx
    cases t with
    | nil =>
      rcases List.mem_singleton.mp hx with rfl
      simp [List.getLast]
    | cons b u =>
      rw [List.getLast_cons (List.cons_ne_nil b u)]
      rcases List.mem_cons.mp hx with rfl | hxt
      · exact Nat.le_of_lt
          (List.rel_of_sorted_cons hs _ (List.getLast_mem (List.cons_ne_nil b u)))
      · exact ih (List.cons_ne_nil b u) hs.of_cons x hxt

/-- C5 (amended): for a non-empty strictly increasing observed series,
the forecast dates number exactly `horizon`, start on the day
immediately after the last observed period (the code always advances by
one day, whatever the bucketing), are day-contiguous, and share no
period with the observed series. -/
theorem C5_forecast_horizon_contiguous (s : List Nat) (hne : s ≠ [])
    (hs : s.Sorted (· < ·)) (horizon : Nat) :
    (forecastDates (s.getLast hne) horizon).length = horizon ∧
    (0 < horizon →
      (forecastDates (s.getLast hne) horizon).head? = some (s.getLast hne + 1)) ∧
    List.Chain' (fun a b => b = a + 1) (forecastDates (s.getLast hne) horizon) ∧
    ∀ p ∈ forecastDates (s.getLast hne) horizon, p ∉ s := by
  refine ⟨?_, ?_, chain'_forecastDates horizon _, ?_⟩
  · simp [forecastDates]
  · intro hpos
    obtain ⟨m, rfl⟩ : ∃ m, horizon = m + 1 :=
      ⟨horizon - 1, (Nat.succ_pred_eq_of_pos hpos).symm⟩
    rw [forecastDates_succ]
    rfl
  · intro p hp hmem
    have hle := le_getLast_of_sorted_lt s hne hs p hmem
    simp only [forecastDates, List.mem_map, List.mem_range] at hp
    obtain ⟨i, hi, hpe⟩ := hp
    omega

/-- C5 witness: the scenario of the spec at a small series — a strictly
increasing 3-point series, horizon 14: exactly 14 forecast points
starting the day after the last observed date. -/
theorem C5_witness :
    (forecastDates ([(3 : Nat), 5, 9].getLast (by simp)) 14).length = 14 ∧
    (forecastDates ([(3 : Nat), 5, 9].getLast (by simp)) 14).head? =
      some ([(3 : Nat), 5, 9].getLast (by simp) + 1) :=
  ⟨(C5_forecast_horizon_contiguous [3, 5, 9] (by simp) (by decide) 14).1,
   (C5_forecast_horizon_contiguous [3, 5, 9] (by simp) (by decide) 14).2.1
      (by omega)⟩

/-- C5 counterexample: for a month-bucketed series whose last observed
period is 2022-03-01, the code produces forecast periods 2022-03-02,
2022-03-03, ... (one day later, daily), not the next month-start
2022-04-01 the claim asserts for month-bucketed series. -/
theorem C5_counterexample :
    forecastDatesCal ⟨2022, 3, 1⟩ 2 = [⟨2022, 3, 2⟩, ⟨2022, 3, 3⟩] ∧
    specNextMonthStart ⟨2022, 3, 1⟩ = ⟨2022, 4, 1⟩ ∧
    forecastStart ⟨2022, 3, 1⟩ ≠ specNextMonthStart ⟨2022, 3, 1⟩ :=
  ⟨rfl, rfl, by decide⟩

/-- C6 counterexample: a cleaned series of 2 points (no more than the
1+1+1 ARIMA order terms) is not rejected as insufficient — the code
proceeds to the model fit; only emptiness is checked. -/
theorem C6_counterexample :
    dropna [((some 0 : Option Nat), (some 1 : Option Int)), (some 1, some 2)] =
      [(0, 1), (1, 2)] ∧
    (dropna [((some 0 : Option Nat), (some 1 : Option Int)),
        (some 1, some 2)]).length ≤ 1 + 1 + 1 ∧
    forecastBranch [((some 0 : Option Nat), (some 1 : Option Int)), (some 1, some 2)] =
      BranchOutcome.fitAttempted 2 ∧
    forecastBranch [((some 0 : Option Nat), (some 1 : Option Int)), (some 1, some 2)] ≠
      BranchOutcome.insufficient :=
  ⟨rfl, by decide, rfl, by decide⟩

/-- C6 (amended): the forecasting branch skips the fit with the
insufficient-data warning exactly when the series is empty after
dropping null or unparseable rows; every non-empty cleaned series,
however short, reaches the ARIMA fit attempt. -/
theorem C6_insufficient_only_when_empty (rows : List (Option Nat × Option Int)) :
    forecastBranch rows = BranchOutcome.insufficient ↔ dropna rows = [] := by
  unfold forecastBranch
  rcases h : dropna rows with _ | ⟨a, t⟩ <;> simp [h]

end Forecast

namespace Cluster

/-- The running best index stays below the scan bound. -/
theorem argminAux_lt : ∀ (ys : List ℚ) (b : ℚ) (best i : Nat),
    best < i → argminAux ys b best i < i + ys.length := by
  intro ys
  induction ys with
  | nil =>
    intro b best i h
    simpa [argminAux] using h
  | cons y t ih =>
    intro b best i h
    unfold argminAux
    by_cases hy : y < b
    · rw [if_pos hy]
      have := ih y i (i + 1) (Nat.lt_succ_self i)
      simp only [List.length_cons]
      omega
    · rw [if_neg hy]
      have := ih b best (i + 1) (Nat.lt_succ_of_lt h)
      simp only [List.length_cons]
      omega

/-- The index of the first minimum of a non-empty list is in range. -/
theorem argminIdx_lt (l : List ℚ) (hne : l ≠ []) : argminIdx l < l.length := by
  cases l with
  | nil => exact absurd rfl hne
  | cons x xs =>
    unfold argminIdx
    have := argminAux_lt xs x 0 1 Nat.one_pos
    simp only [List.length_cons]
    omega

/-- A label is always the index of one of the centroids. -/
theorem nearestCentroid_lt (cents : List Vec) (x : Vec) (hne : cents ≠ []) :
    nearestCentroid cents x < cents.length := by
  unfold nearestCentroid
  have h := argminIdx_lt (cents.map (sqDist x)) (by simpa using hne)
  simpa using h

/-- Seeded initialization produces exactly `k` centroids. -/
theorem length_initCentroids (seed k : Nat) (data : List Vec) :
    (initCentroids seed k data).length = k := by
  simp [initCentroids]

/-- A Lloyd iteration preserves the number of centroids. -/
theorem length_lloydStep (data cents : List Vec) :
    (lloydStep data cents).length = cents.length := by
  simp [lloydStep]

/-- Any number of Lloyd iterations preserves the number of centroids. -/
theorem length_lloydIter (data : List Vec) : ∀ (n : Nat) (cents : List Vec),
    (lloydIter data n cents).length = cents.length := by
  intro n
  induction n with
  | zero => intro cents; rfl
  | succ m ih =>
    intro cents
    have hstep : lloydIter data (m + 1) cents = lloydIter data m (lloydStep data cents) :=
      rfl
    rw [hstep, ih, length_lloydStep]

/-- C7: the clustering run is a deterministic function of the data, the
cluster count and the seed — two runs with identical inputs give
identical assignments — and every assigned cluster index is below `k`.
(`runClustering` is this function at the fixed `random_state=42` of the
code.) -/
theorem C7_clustering_reproducible (seed k : Nat) (data : List Vec) (hk : 1 ≤ k) :
    kmeansFitPredict seed k data = kmeansFitPredict seed k data ∧
    (kmeansFitPredict seed k data).all (fun c => decide (c < k)) = true := by
  refine ⟨rfl, ?_⟩
  rw [List.all_eq_true]
  intro c hc
  simp only [kmeansFitPredict, List.mem_map] at hc
  obtain ⟨x, hx, rfl⟩ := hc
  simp only [decide_eq_true_eq]
  have hlen : (lloydIter data 300 (initCentroids seed k data)).length = k := by
    rw [length_lloydIter, length_initCentroids]
  have hne : lloydIter data 300 (initCentroids seed k data) ≠ [] := by
    intro hnil
    rw [hnil] at hlen
    simp at hlen
    omega
  have hlt := nearestCentroid_lt _ x hne
  rw [hlen] at hlt
  exact hlt

/-- C7 witness: two one-feature entities, k = 2, the fixed seed 42. -/
theorem C7_witness :
    kmeansFitPredict 42 2 [[(0 : ℚ)], [(10 : ℚ)]] =
      kmeansFitPredict 42 2 [[(0 : ℚ)], [(10 : ℚ)]] ∧
    (kmeansFitPredict 42 2 [[(0 : ℚ)], [(10 : ℚ)]]).all (fun c => decide (c < 2)) =
      true :=
  C7_clustering_reproducible 42 2 [[0], [10]] (by omega)

end Cluster
